import Mathlib

/-!
Verification of the transaction-firewall analysis pipeline.

This file is a shallow embedding, in Lean 4, of the core analysis functions of
the pre-signing firewall backend: the capability hash and drift detector
(ScanHistory.ts), the static security analyzer and counterfactual analyzer
(SecurityAnalyzer / CounterfactualAnalyzer), the time-travel analyzer
(TimeTravelAnalyzer), the proxy detector and its implementation-chain walk
(ProxyDetector), the continuous feature vector builder (MLService), and the
final verdict assembly (EvmExecutor.simulateTransaction).

Modelling conventions:
  - Machine numbers are modelled as Nat / Int / Rat with explicit `% 2 ^ 32`
    where 32-bit overflow matters (SHA-256); JavaScript float divisions that
    are only compared against exact constants are modelled as exact rational
    arithmetic.
  - JavaScript strings are Lean `String`s; the default JS array sort on
    strings is modelled by insertion sort under the lexicographic order on
    the character lists (identical to the JS order on the ASCII flag strings
    the system produces).
  - Async RPC reads (contract code, storage slots, static calls) are modelled
    as explicit function parameters: the embedding of a method receives the
    values the external world would have answered.
-/

/- ## String utilities

JS string primitives re-modelled over `String.data` so that every definition
reduces inside the kernel. -/

/-- Lowercase hex digit for a value below 16, as produced by Node's hex
encoders (0-9 then a-f). -/
def hexDigitChar (n : Nat) : Char := if n < 10 then Char.ofNat (48 + n) else Char.ofNat (87 + n)

/-- Two lowercase hex characters of one byte (zero padded), as in
Buffer.toString("hex") / bytesToHex. -/
def byteHexChars (b : Nat) : List Char := [hexDigitChar (b / 16 % 16), hexDigitChar (b % 16)]

/-- Lowercase hex encoding (without 0x) of a byte list, as a character list. -/
def bytesHex (bs : List Nat) : List Char := (bs.map byteHexChars).flatten

/-- Lowercase hex encoding of a byte list as a string, without 0x. -/
def bytesHexStr (bs : List Nat) : String := String.mk (bytesHex bs)

/-- JS String.prototype.includes on character lists: does `pat` occur as a
contiguous subsequence of `l`? -/
def hasSubSeq (pat : List Char) : List Char → Bool
  | [] => pat.isEmpty
  | c :: rest => pat.isPrefixOf (c :: rest) || hasSubSeq pat rest

/-- JS String.prototype.includes. -/
def strIncludes (s pat : String) : Bool := hasSubSeq pat.data s.data

/-- JS String.prototype.startsWith. -/
def strStartsWith (s pat : String) : Bool := pat.data.isPrefixOf s.data

/-- JS String.prototype.endsWith. -/
def strEndsWith (s pat : String) : Bool := pat.data.isSuffixOf s.data

/-- JS String.prototype.toLowerCase (per-character, sufficient for the ASCII
flag vocabulary of the system). -/
def strToLower (s : String) : String := String.mk (s.data.map Char.toLower)

/- ## JS default string sort order

Array.prototype.sort() without a comparator sorts strings by their code
units; on the flag strings of this system that is the lexicographic order on
the character lists below. -/

/-- Lexicographic less-or-equal on character lists, by character code. -/
def charsLeB : List Char → List Char → Bool
  | [], _ => true
  | _ :: _, [] => false
  | a :: as, b :: bs =>
    if a.toNat < b.toNat then true
    else if b.toNat < a.toNat then false
    else charsLeB as bs

/-- The JS string sort order as a proposition on strings. -/
def strLe (a b : String) : Prop := charsLeB a.data b.data = true

instance : DecidableRel strLe := fun _ _ => instDecidableEqBool _ _

theorem charsLeB_cons_iff {a b : Char} {as bs : List Char} :
    charsLeB (a :: as) (b :: bs) = true ↔
      a.toNat < b.toNat ∨ (a.toNat = b.toNat ∧ charsLeB as bs = true) := by
  by_cases h : a.toNat < b.toNat
  · simp [charsLeB, h]
  · by_cases h2 : b.toNat < a.toNat
    · simp [charsLeB, h, h2]
      omega
    · have he : a.toNat = b.toNat := by omega
      simp [charsLeB, h, h2, he]

theorem charsLeB_total : ∀ as bs : List Char, charsLeB as bs = true ∨ charsLeB bs as = true := by
  intro as
  induction as with
  | nil => intro bs; left; simp [charsLeB]
  | cons a as ih =>
    intro bs
    cases bs with
    | nil => right; simp [charsLeB]
    | cons b bs =>
      rcases Nat.lt_trichotomy a.toNat b.toNat with h | h | h
      · left; exact charsLeB_cons_iff.mpr (Or.inl h)
      · rcases ih bs with ht | ht
        · left; exact charsLeB_cons_iff.mpr (Or.inr ⟨h, ht⟩)
        · right; exact charsLeB_cons_iff.mpr (Or.inr ⟨h.symm, ht⟩)
      · right; exact charsLeB_cons_iff.mpr (Or.inl h)

theorem charsLeB_trans :
    ∀ as bs cs : List Char, charsLeB as bs = true → charsLeB bs cs = true →
      charsLeB as cs = true := by
  intro as
  induction as with
  | nil => intro bs cs _ _; simp [charsLeB]
  | cons a as ih =>
    intro bs cs h1 h2
    cases bs with
    | nil => simp [charsLeB] at h1
    | cons b bs =>
      cases cs with
      | nil => simp [charsLeB] at h2
      | cons c cs =>
        rcases charsLeB_cons_iff.mp h1 with hab | ⟨hab, t1⟩ <;>
          rcases charsLeB_cons_iff.mp h2 with hbc | ⟨hbc, t2⟩
        · exact charsLeB_cons_iff.mpr (Or.inl (by omega))
        · exact charsLeB_cons_iff.mpr (Or.inl (by omega))
        · exact charsLeB_cons_iff.mpr (Or.inl (by omega))
        · exact charsLeB_cons_iff.mpr (Or.inr ⟨by omega, ih bs cs t1 t2⟩)

theorem charsLeB_antisymm :
    ∀ as bs : List Char, charsLeB as bs = true → charsLeB bs as = true → as = bs := by
  intro as
  induction as with
  | nil => intro bs h1 _; cases bs with
    | nil => rfl
    | cons b bs => simp [charsLeB] at *
  | cons a as ih =>
    intro bs h1 h2
    cases bs with
    | nil => simp [charsLeB] at h1
    | cons b bs =>
      rcases charsLeB_cons_iff.mp h1 with hab | ⟨hab, t1⟩ <;>
        rcases charsLeB_cons_iff.mp h2 with hba | ⟨hba, t2⟩ <;>
          try omega
      have hc : a = b := Char.eq_of_val_eq (UInt32.ext hab)
      rw [hc, ih bs t1 t2]

instance : IsTotal String strLe := ⟨fun a b => charsLeB_total a.data b.data⟩

instance : IsTrans String strLe := ⟨fun a b c => charsLeB_trans a.data b.data c.data⟩

instance : IsAntisymm String strLe :=
  ⟨fun a b h1 h2 => by
    cases a; cases b
    exact congrArg String.mk (charsLeB_antisymm _ _ h1 h2)⟩

/- ## SHA-256

A computable model of Node's crypto sha256 over byte lists, with 32-bit words
as Nat values reduced `% 2 ^ 32`. -/

/-- Rotate a 32-bit Nat-encoded word right by n positions, wrapping modulo
2 ^ 32. -/
def rotr32 (n x : Nat) : Nat := ((x >>> n) ||| (x <<< (32 - n))) % 4294967296

/-- The per-round additive constants of SHA-256 (FIPS 180-4), as decimal
Nat values. -/
def sha256K : List Nat :=
  [1116352408, 1899447441, 3049323471, 3921009573,
   961987163, 1508970993, 2453635748, 2870763221,
   3624381080, 310598401, 607225278, 1426881987,
   1925078388, 2162078206, 2614888103, 3248222580,
   3835390401, 4022224774, 264347078, 604807628,
   770255983, 1249150122, 1555081692, 1996064986,
   2554220882, 2821834349, 2952996808, 3210313671,
   3336571891, 3584528711, 113926993, 338241895,
   666307205, 773529912, 1294757372, 1396182291,
   1695183700, 1986661051, 2177026350, 2456956037,
   2730485921, 2820302411, 3259730800, 3345764771,
   3516065817, 3600352804, 4094571909, 275423344,
   430227734, 506948616, 659060556, 883997877,
   958139571, 1322822218, 1537002063, 1747873779,
   1955562222, 2024104815, 2227730452, 2361852424,
   2428436474, 2756734187, 3204031479, 3329325298]

/-- The eight SHA-256 working words. -/
structure Sha8 where
  a : Nat
  b : Nat
  c : Nat
  d : Nat
  e : Nat
  f : Nat
  g : Nat
  h : Nat
deriving DecidableEq

/-- The starting hash state of SHA-256 (FIPS 180-4), as decimal Nat
values. -/
def shaInit : Sha8 :=
  ⟨1779033703, 3144134277, 1013904242, 2773480762,
   1359893119, 2600822924, 528734635, 1541459225⟩

/-- Big-endian word value of a byte list. -/
def beWord (bytes : List Nat) : Nat := bytes.foldl (fun acc x => acc * 256 + x) 0

/-- Split a byte list into big-endian 32-bit words (fuel-guided). -/
def toWordsAux : Nat → List Nat → List Nat
  | 0, _ => []
  | _ + 1, [] => []
  | n + 1, l => beWord (l.take 4) :: toWordsAux n (l.drop 4)

/-- One extension step of the SHA-256 message schedule. -/
def scheduleStep (ws : List Nat) : List Nat :=
  let i := ws.length
  let wm15 := ws.getD (i - 15) 0
  let wm2 := ws.getD (i - 2) 0
  let wm16 := ws.getD (i - 16) 0
  let wm7 := ws.getD (i - 7) 0
  let s0 := (rotr32 7 wm15) ^^^ (rotr32 18 wm15) ^^^ (wm15 >>> 3)
  let s1 := (rotr32 17 wm2) ^^^ (rotr32 19 wm2) ^^^ (wm2 >>> 10)
  ws ++ [(wm16 + s0 + wm7 + s1) % 4294967296]

/-- Extend the 16 block words to the 64 schedule words. -/
def buildSchedule : Nat → List Nat → List Nat
  | 0, ws => ws
  | n + 1, ws => buildSchedule n (scheduleStep ws)

/-- One SHA-256 compression round for a (round constant, schedule word) pair. -/
def roundStep (st : Sha8) (kw : Nat × Nat) : Sha8 :=
  let s1 := (rotr32 6 st.e) ^^^ (rotr32 11 st.e) ^^^ (rotr32 25 st.e)
  let ch := (st.e &&& st.f) ^^^ ((0xffffffff ^^^ st.e) &&& st.g)
  let t1 := (st.h + s1 + ch + kw.1 + kw.2) % 4294967296
  let s0 := (rotr32 2 st.a) ^^^ (rotr32 13 st.a) ^^^ (rotr32 22 st.a)
  let mj := (st.a &&& st.b) ^^^ (st.a &&& st.c) ^^^ (st.b &&& st.c)
  let t2 := (s0 + mj) % 4294967296
  ⟨(t1 + t2) % 4294967296, st.a, st.b, st.c, (st.d + t1) % 4294967296, st.e, st.f, st.g⟩

/-- Compress one 64-byte block into the running hash state. -/
def compressBlock (hs : Sha8) (block : List Nat) : Sha8 :=
  let ws := buildSchedule 48 (toWordsAux 16 block)
  let st := (sha256K.zip ws).foldl roundStep hs
  ⟨(hs.a + st.a) % 4294967296, (hs.b + st.b) % 4294967296, (hs.c + st.c) % 4294967296,
   (hs.d + st.d) % 4294967296, (hs.e + st.e) % 4294967296, (hs.f + st.f) % 4294967296,
   (hs.g + st.g) % 4294967296, (hs.h + st.h) % 4294967296⟩

/-- Big-endian 8-byte encoding of the message bit length. -/
def lenBytes64 (n : Nat) : List Nat :=
  [56, 48, 40, 32, 24, 16, 8, 0].map (fun s => (n >>> s) % 256)

/-- SHA-256 padding: 0x80, zeros to 56 mod 64, then the 64-bit bit length. -/
def padMessage (msg : List Nat) : List Nat :=
  let zeros := (120 - ((msg.length + 1) % 64)) % 64
  msg ++ [0x80] ++ List.replicate zeros 0 ++ lenBytes64 (8 * msg.length)

/-- Split a padded message into 64-byte blocks (fuel-guided). -/
def toBlocksAux : Nat → List Nat → List (List Nat)
  | 0, _ => []
  | _ + 1, [] => []
  | n + 1, l => l.take 64 :: toBlocksAux n (l.drop 64)

/-- The eight 32-bit digest words of the SHA-256 of a byte list. -/
def sha256Words (msg : List Nat) : List Nat :=
  let padded := padMessage msg
  let final := (toBlocksAux (padded.length / 64) padded).foldl compressBlock shaInit
  [final.a, final.b, final.c, final.d, final.e, final.f, final.g, final.h]

/-- Eight lowercase hex characters of a 32-bit word. -/
def wordHexChars (x : Nat) : List Char :=
  [28, 24, 20, 16, 12, 8, 4, 0].map (fun s => hexDigitChar ((x >>> s) % 16))

/-- The 64-character lowercase hex digest of the SHA-256 of a byte list, as
crypto.createHash("sha256").update(s).digest("hex") renders it. -/
def sha256Hex (msg : List Nat) : String :=
  String.mk ((sha256Words msg).map wordHexChars).flatten

/-- UTF-8 bytes of one character (the encoding Node applies to the strings
fed into the hash). -/
def charUtf8 (c : Char) : List Nat :=
  let n := c.toNat
  if n < 0x80 then [n]
  else if n < 0x800 then [0xc0 + n / 64, 0x80 + n % 64]
  else if n < 0x10000 then [0xe0 + n / 4096, 0x80 + (n / 64) % 64, 0x80 + n % 64]
  else [0xf0 + n / 262144, 0x80 + (n / 4096) % 64, 0x80 + (n / 64) % 64, 0x80 + n % 64]

/-- UTF-8 byte list of a string. -/
def strBytes (s : String) : List Nat := (s.data.map charUtf8).flatten

namespace ScanHistory

/- Embedding of src/backend/src/services/ScanHistory.ts. -/

/-- ScanHistory.generateCapabilityHash: sha256 of the sorted, pipe-joined
flag list, truncated to its first 16 hex characters. -/
def generateCapabilityHash (flags : List String) : String :=
  let sorted := String.intercalate "|" (List.insertionSort strLe flags)
  (sha256Hex (strBytes sorted)).take 16

/-- The fields of a stored ScanRecord that drift analysis reads. -/
structure ScanRecord where
  riskScore : Int
  flags : List String
  capabilityHash : String
deriving DecidableEq

/-- The fields of the current SecurityReport that drift analysis reads. -/
structure CurrentReport where
  riskScore : Int
  flags : List String
deriving DecidableEq

/-- The DriftAnalysis result record. -/
structure DriftAnalysis where
  hasDrift : Bool
  riskDelta : Int
  newFlags : List String
  removedFlags : List String
  previousScan : Option ScanRecord
deriving DecidableEq

/-- ScanHistory.analyzeDrift: the stored latest scan is passed in as
`previousScan` (the Redis read made explicit). -/
def analyzeDrift (previousScan : Option ScanRecord) (currentReport : CurrentReport) :
    DriftAnalysis :=
  match previousScan with
  | none => ⟨false, 0, [], [], none⟩
  | some prev =>
    let currentCapabilityHash := generateCapabilityHash currentReport.flags
    let hasDrift : Bool := currentCapabilityHash ≠ prev.capabilityHash
    let newFlags := currentReport.flags.filter (fun f => ¬ prev.flags.contains f)
    let removedFlags := prev.flags.filter (fun f => ¬ currentReport.flags.contains f)
    ⟨hasDrift, currentReport.riskScore - prev.riskScore, newFlags, removedFlags, some prev⟩

/-- The auto-flag text pushed by EvmExecutor.simulateTransaction on a risk
increase. -/
def riskIncreasedFlag (delta : Int) : String :=
  "Risk Increased (+" ++ toString delta ++ " since last scan)"

/-- The drift flag push in EvmExecutor.simulateTransaction: inside
`if (driftAnalysis.hasDrift)`, when `riskDelta > 0`, the auto-flag is
appended to the current report's flags. -/
def applyDriftFlag (drift : DriftAnalysis) (flags : List String) : List String :=
  if drift.hasDrift ∧ drift.riskDelta > 0 then flags ++ [riskIncreasedFlag drift.riskDelta]
  else flags

end ScanHistory

namespace SecurityAnalyzer

/- Embedding of SecurityAnalyzer.analyze (static bytecode analyzer). The
simulation status, the resolved owner() return value (after the RPC
fallback) and the deployed code bytes are the inputs the method reads. -/

/-- One entry of the suspicious selector table. -/
structure SecPattern where
  name : String
  selector : String
  risk : Nat
deriving DecidableEq

/-- The fixed table of suspicious function selectors with risk weights. -/
def suspiciousPatterns : List SecPattern :=
  [⟨"blacklist(address)", "f9f92be4", 50⟩,
   ⟨"pause()", "8456cb59", 30⟩,
   ⟨"_pause()", "2f2b3887", 30⟩,
   ⟨"enableTrading()", "8a8c523c", 20⟩,
   ⟨"openTrading()", "c9044b7d", 20⟩,
   ⟨"setFee(uint256)", "69fe0e2d", 25⟩,
   ⟨"setTaxFeePercent(uint256)", "061c82d0", 25⟩,
   ⟨"setMarketingFee(uint256)", "2323cc66", 20⟩,
   ⟨"updateFees(uint256,uint256)", "37b8d80f", 20⟩,
   ⟨"mint(address,uint256)", "40c10f19", 60⟩,
   ⟨"_mint(address,uint256)", "9c0f929c", 60⟩,
   ⟨"removeLiquidity", "78265506", 90⟩,
   ⟨"removeLiquidityETH", "af2979eb", 90⟩,
   ⟨"drain()", "d040220a", 100⟩,
   ⟨"withdrawETH()", "474cf53d", 50⟩,
   ⟨"_transfer", "30e0789e", 40⟩,
   ⟨"_beforeTokenTransfer", "38d52e0f", 30⟩,
   ⟨"setMaxTxAmount", "83151877", 20⟩]

/-- The SecurityReport fields produced by the analyzer. -/
structure SecurityReport where
  isHoneypot : Bool
  ownershipStatus : String
  riskScore : Nat
  flags : List String
  ownerAddress : Option String
deriving DecidableEq

/-- SecurityAnalyzer.analyze. `simStatus` is simulationResult.status,
`ownerReturn` the byte value returned by the owner() probe (after the RPC
fallback; empty when both probes yielded nothing), `code` the deployed
bytecode. The Address constructor in the source throws unless it gets
exactly 20 bytes, so the ownership branch only commits its mutations when
the return value has length 32 (last 20 bytes taken) or exactly 20. -/
def analyze (simStatus : String) (ownerReturn : List Nat) (code : List Nat) : SecurityReport :=
  let r1 : SecurityReport :=
    if strStartsWith simStatus "Reverted" then
      ⟨false, "Unknown", 20, ["Simulation Reverted"], none⟩
    else ⟨false, "Unknown", 0, [], none⟩
  let r2 : SecurityReport :=
    if ownerReturn.length = 32 ∨ ownerReturn.length = 20 then
      let ownerBytes := if ownerReturn.length = 32 then ownerReturn.drop 12 else ownerReturn
      let isZero := ownerBytes.all (· = 0)
      let ownerAddress := "0x" ++ bytesHexStr ownerBytes
      if isZero then
        { r1 with ownershipStatus := "Renounced",
                  flags := r1.flags ++ ["Ownership Renounced (Safe)"] }
      else
        { r1 with ownershipStatus := "Centralized",
                  ownerAddress := some ownerAddress,
                  flags := r1.flags ++ ["Contract has an Owner: " ++ ownerAddress],
                  riskScore := r1.riskScore + 10 }
    else r1
  let codeHex := bytesHex code
  suspiciousPatterns.foldl (fun r p =>
    if hasSubSeq p.selector.data codeHex then
      { r with flags := r.flags ++ ["Suspicious Function: " ++ p.name ++ "()"],
               riskScore := r.riskScore + p.risk,
               isHoneypot := true }
    else r) r2

end SecurityAnalyzer

/- ## Simulation outcomes -/

/-- The status of a SimulationOutcome as produced by
SimulationEngine.executeWithTimestamp: Success, or Reverted with a reason. -/
inductive SimStatus
  | Success
  | Reverted
deriving DecidableEq

namespace TimeTravel

/- Embedding of TimeTravelAnalyzer.runTimeTravelSimulation. The EVM runs are
made explicit: `currentStatus` is the baseline outcome and `outcomeAt o` the
outcome of the run with block.timestamp shifted by `o` seconds. -/

/-- One entry of futureResults. -/
structure FutureResult where
  offsetSeconds : Int
  offsetDescription : String
  status : SimStatus
  divergesFromCurrent : Bool
deriving DecidableEq

/-- The TimeTravelResult fields the claims read. -/
structure TimeTravelResult where
  isTimeSensitive : Bool
  currentStatus : SimStatus
  futureResults : List FutureResult
  riskFlags : List String
deriving DecidableEq

/-- The canonical offset list of the analyzer, with descriptions. -/
def timeOffsetList : List (Int × String) :=
  [(0, "Current Block"), (3600, "+1 Hour"), (86400, "+1 Day"), (604800, "+7 Days"),
   (2592000, "+30 Days"), (-86400, "-1 Day (Past)")]

/-- The risk-flag accumulation loop of analyzeTimeTravelResults. -/
def timeTravelFlags (currentStatus : SimStatus) (futureResults : List FutureResult) :
    List String :=
  let currentSuccess := currentStatus = SimStatus.Success
  futureResults.foldl (fun flags f =>
    if ¬ f.divergesFromCurrent then flags
    else
      let futureSuccess := f.status = SimStatus.Success
      if currentSuccess ∧ ¬ futureSuccess then
        if f.offsetSeconds > 0 then
          flags ++ ["TIME-BOMB: Transaction fails at " ++ f.offsetDescription] ++
            (if f.offsetSeconds ≤ 604800 then
              ["CRITICAL: Fails within 7 days - possible honeypot activation"] else [])
        else flags
      else if ¬ currentSuccess ∧ futureSuccess then
        if f.offsetSeconds > 0 then
          flags ++ ["DELAYED TRADING: Trading opens at " ++ f.offsetDescription] ++
            (if f.offsetSeconds > 86400 then
              ["WARNING: Extended trading delay - verify legitimacy"] else [])
        else flags ++ ["TRADING CLOSED: Transaction worked before but fails now"]
      else flags) []

/-- TimeTravelAnalyzer.runTimeTravelSimulation: every non-zero offset is run
and compared against the baseline; any status divergence sets
isTimeSensitive. -/
def runTimeTravelSimulation (currentStatus : SimStatus) (outcomeAt : Int → SimStatus) :
    TimeTravelResult :=
  let futureResults := (timeOffsetList.filter (fun p => decide (p.1 ≠ 0))).map (fun p =>
    ⟨p.1, p.2, outcomeAt p.1, decide (outcomeAt p.1 ≠ currentStatus)⟩)
  let isTimeSensitive := futureResults.any (·.divergesFromCurrent)
  ⟨isTimeSensitive, currentStatus, futureResults, timeTravelFlags currentStatus futureResults⟩

end TimeTravel

namespace Counterfactual

/- Embedding of CounterfactualAnalyzer.analyzeCounterfactualResults. The
actor matrix (the outcome of one EVM run per actor) is the input. -/

/-- The actor roles of the counterfactual family. -/
inductive ActorType
  | RandomUser
  | Owner
  | WhitelistedAddress
  | Deployer
deriving DecidableEq

/-- One row of the actor matrix. -/
structure ActorResult where
  actorType : ActorType
  address : String
  status : SimStatus
  gasUsed : Nat
deriving DecidableEq

/-- One privilege difference record. -/
structure PrivilegeDiff where
  description : String
  userOutcome : String
  ownerOutcome : String
  severity : String
deriving DecidableEq

/-- The CounterfactualResult record. -/
structure CounterfactualResult where
  isHoneypot : Bool
  hasOwnerPrivileges : Bool
  hasWhitelistMechanism : Bool
  actorResults : List ActorResult
  privilegeDiff : List PrivilegeDiff
  summary : String
  riskFlags : List String
  riskScore : Nat
deriving DecidableEq

/-- The GAS ANOMALY flag text. -/
def gasAnomalyFlag (userGas ownerGas : Nat) : String :=
  "GAS ANOMALY: Significant gas difference between user (" ++ toString userGas ++
    ") and owner (" ++ toString ownerGas ++ ")"

/-- The gas of the first row of a result list (userResults[0] resp. the
ownerResults[0] read whose JS or-default yields 0 on an empty list). -/
def headGas : List ActorResult → Nat
  | [] => 0
  | r :: _ => r.gasUsed

/-- The gas-anomaly test of analyzeCounterfactualResults: both lists are
populated, both first-row gas values positive, and the float comparison
gasDiff / avgGas > 0.5 over a positive avgGas, which over the exact
rationals is 2 * gasDiff > avgGas. -/
def gasAnomalyCond (userResults ownerResults : List ActorResult) : Bool :=
  let userGas := headGas userResults
  let ownerGas := headGas ownerResults
  let gasDiff := if userGas > ownerGas then userGas - ownerGas else ownerGas - userGas
  let avgGas := (userGas + ownerGas) / 2
  decide (userResults.length > 0) && decide (ownerResults.length > 0) &&
    decide (userGas > 0) && decide (ownerGas > 0) &&
    (decide (avgGas > 0) && decide (2 * gasDiff > avgGas))

/-- CounterfactualAnalyzer.analyzeCounterfactualResults, translated from the
mutation sequence of the source into one record: honeypot rule, unusual
rule, whitelist rule, then the gas-anomaly rule (whose float comparison
gasDiff / avgGas > 0.5 over an avgGas > 0 is the exact rational condition
2 * gasDiff > avgGas). -/
def analyzeCounterfactualResults (actorResults : List ActorResult) : CounterfactualResult :=
  let userResults := actorResults.filter (fun r => decide (r.actorType = ActorType.RandomUser))
  let ownerResults := actorResults.filter (fun r => decide (r.actorType = ActorType.Owner))
  let whitelistResults :=
    actorResults.filter (fun r => decide (r.actorType = ActorType.WhitelistedAddress))
  let anyUserSucceeds := userResults.any (fun r => decide (r.status = SimStatus.Success))
  let allUsersFail := userResults.all (fun r => decide (r.status = SimStatus.Reverted))
  let ownerSucceeds := ownerResults.any (fun r => decide (r.status = SimStatus.Success))
  let ownerFails := ownerResults.all (fun r => decide (r.status = SimStatus.Reverted))
  let whitelistSucceeds := whitelistResults.any (fun r => decide (r.status = SimStatus.Success))
  let honeypotCond := allUsersFail && ownerSucceeds
  let unusualCond := anyUserSucceeds && ownerFails
  let wlCond := decide (whitelistResults.length > 0) && (whitelistSucceeds && allUsersFail)
  let userGas : Nat := headGas userResults
  let ownerGas : Nat := headGas ownerResults
  let gasCond := gasAnomalyCond userResults ownerResults
  let riskBase : Nat := if honeypotCond then 100 else 0
  let riskAfterWl : Nat := if wlCond then max riskBase 80 else riskBase
  let riskScore : Nat := riskAfterWl + (if gasCond then 15 else 0)
  let summary :=
    if honeypotCond then
      "HONEYPOT CONFIRMED: This contract allows the owner to trade but blocks regular users. DO NOT INVEST."
    else if wlCond then
      "WHITELIST SCAM: Only certain addresses can trade. Regular users are blocked."
    else if honeypotCond then
      "OWNER PRIVILEGES: The owner has special trading privileges not available to users."
    else if allUsersFail then "TRADING BLOCKED: All users cannot execute this transaction."
    else if anyUserSucceeds then
      "No privilege differences detected. Transaction executes equally for all actors."
    else "Unable to determine privilege status - insufficient data."
  { isHoneypot := honeypotCond
    hasOwnerPrivileges := honeypotCond
    hasWhitelistMechanism := wlCond
    actorResults := actorResults
    privilegeDiff :=
      (if honeypotCond then
        [⟨"Transaction Execution", "BLOCKED (Reverted)", "ALLOWED (Success)", "Critical"⟩]
       else []) ++
      (if unusualCond then
        [⟨"Transaction Execution", "ALLOWED", "BLOCKED", "Medium"⟩] else [])
    summary := summary
    riskFlags :=
      (if honeypotCond then ["CRITICAL HONEYPOT: Owner can execute, but users CANNOT"]
       else []) ++
      (if unusualCond then ["UNUSUAL: Users can execute but owner cannot - verify logic"]
       else []) ++
      (if wlCond then ["WHITELIST DETECTED: Only whitelisted addresses can trade"] else []) ++
      (if gasCond then [gasAnomalyFlag userGas ownerGas] else [])
    riskScore := riskScore }

end Counterfactual

/-- The result record of AdvancedSimulator.runComprehensiveAnalysis. -/
structure AdvancedAnalysis where
  timeTravel : TimeTravel.TimeTravelResult
  counterfactual : Counterfactual.CounterfactualResult
  overallRiskScore : Nat
  overallSummary : String
  isScam : Bool
deriving DecidableEq

namespace ProxyDetector

/- Embedding of ProxyDetector. The chain reads (deployed code, the four
standard storage slots, the implementation() static call) are made explicit
in a ChainEnv record: the embedding of a detection step receives the values
the EVM state or the RPC provider would have answered. -/

/-- The ProxyInfo record. -/
structure ProxyInfo where
  isProxy : Bool
  proxyType : Option String
  implementationAddress : Option String
  beaconAddress : Option String
  adminAddress : Option String
deriving DecidableEq

/-- The not-a-proxy default result. -/
def emptyInfo : ProxyInfo := ⟨false, none, none, none, none⟩

/-- The observable state of one address: deployed code, the EIP-1967
implementation/beacon/admin slot values, the EIP-1822 slot value, and the
return data of the implementation() call (none models a revert). -/
structure ChainEnv where
  code : List Nat
  implSlot : List Nat
  beaconSlot : List Nat
  adminSlot : List Nat
  uupsSlot : List Nat
  eip897Return : Option (List Nat)
deriving DecidableEq

/-- The fixed 10-byte EIP-1167 leading hex pattern. -/
def minimalProxyPre : String := "363d3d373d3d3d363d73"

/-- The fixed 15-byte EIP-1167 trailing hex pattern. -/
def minimalProxySuf : String := "5af43d82803e903d91602b57fd5bf3"

/-- ProxyDetector.extractAddress: the last 20 bytes of a storage value,
rejecting short values and the zero address. -/
def extractAddress (value : List Nat) : Option String :=
  if value.length < 20 then none
  else
    let addressBytes := value.drop (value.length - 20)
    if addressBytes.all (· = 0) then none
    else some ("0x" ++ bytesHexStr addressBytes)

/-- ProxyDetector.checkMinimalProxy: hex prefix/suffix match, with the
implementation address in the 40 hex characters after the leading pattern. -/
def checkMinimalProxy (codeHex : List Char) : Option String :=
  if minimalProxyPre.data.isPrefixOf codeHex && minimalProxySuf.data.isSuffixOf codeHex then
    some ("0x" ++ String.mk ((codeHex.drop 20).take 40))
  else none

/-- ProxyDetector.containsDelegateCall: a plain substring search for "f4" in
the lowercase hex encoding of the deployed code. -/
def containsDelegateCall (codeHex : List Char) : Bool := hasSubSeq "f4".data codeHex

/-- ProxyDetector.checkEIP1967Slots on the explicit slot values. -/
def checkEIP1967Slots (env : ChainEnv) : ProxyInfo :=
  match extractAddress env.implSlot with
  | some impl =>
    { isProxy := true, proxyType := some "EIP-1967", implementationAddress := some impl,
      beaconAddress := extractAddress env.beaconSlot,
      adminAddress := extractAddress env.adminSlot }
  | none => emptyInfo

/-- ProxyDetector.checkEIP1822 on the explicit slot value. -/
def checkEIP1822 (env : ChainEnv) : ProxyInfo :=
  match extractAddress env.uupsSlot with
  | some impl => ⟨true, some "EIP-1822", some impl, none, none⟩
  | none => emptyInfo

/-- ProxyDetector.checkEIP897: a 32-byte return of implementation() holding a
non-zero address. -/
def checkEIP897 (env : ChainEnv) : ProxyInfo :=
  match env.eip897Return with
  | some ret =>
    if ret.length = 32 then
      match extractAddress ret with
      | some impl => ⟨true, some "EIP-897", some impl, none, none⟩
      | none => emptyInfo
    else emptyInfo
  | none => emptyInfo

/-- ProxyDetector.detectProxy: minimal-proxy pattern first, then the
EIP-1967 / EIP-1822 / EIP-897 checks in order, and finally the custom-proxy
fallback for code under 200 bytes whose hex contains "f4". -/
def detectProxy (env : ChainEnv) : ProxyInfo :=
  let codeHex := bytesHex env.code
  match checkMinimalProxy codeHex with
  | some impl => ⟨true, some "Minimal", some impl, none, none⟩
  | none =>
    let hasDelegateCall := containsDelegateCall codeHex
    let isMinimalCode := decide (env.code.length < 200)
    let eip1967 := checkEIP1967Slots env
    if eip1967.isProxy then eip1967
    else
      let eip1822 := checkEIP1822 env
      if eip1822.isProxy then eip1822
      else
        let eip897 := checkEIP897 env
        if eip897.isProxy then eip897
        else if isMinimalCode && hasDelegateCall then ⟨true, some "Minimal", none, none, none⟩
        else emptyInfo

/-- The while loop of ProxyDetector.resolveImplementationChain, with the
remaining depth as fuel (maxDepth 5 at the top call). One hop detects a
proxy at the current address, pushes its implementation, and walks on only
when the provider returns non-empty code for it. -/
def resolveChainLoop (world : String → ChainEnv) (codeOf : String → Option String) :
    Nat → String → List String → List String
  | 0, _, chain => chain
  | d + 1, current, chain =>
    let info := detectProxy (world current)
    if info.isProxy then
      match info.implementationAddress with
      | some impl =>
        let nextChain := chain ++ [impl]
        match codeOf impl with
        | some c => if c ≠ "" ∧ c ≠ "0x" then resolveChainLoop world codeOf d impl nextChain
                    else nextChain
        | none => nextChain
      | none => chain
    else chain

/-- The result of resolveImplementationChain. -/
structure ResolveResult where
  chain : List String
  finalImplementation : Option String
deriving DecidableEq

/-- ProxyDetector.resolveImplementationChain at the default maxDepth of 5. -/
def resolveImplementationChain (world : String → ChainEnv) (codeOf : String → Option String)
    (address : String) : ResolveResult :=
  let chain := resolveChainLoop world codeOf 5 address [address]
  ⟨chain, if chain.length > 1 then chain.getLast? else none⟩

end ProxyDetector

namespace MLService

/- Embedding of MLService.buildFeatureVector. JavaScript float arithmetic is
modelled over the exact rationals. -/

/-- The 15-field continuous feature vector. -/
structure ContinuousFeatures where
  sim_success_rate : ℚ
  owner_privilege_ratio : ℚ
  time_variance_score : ℚ
  gated_branch_ratio : ℚ
  mint_transfer_ratio : ℚ
  suspicious_opcode_density : ℚ
  proxy_depth_normalized : ℚ
  sload_density : ℚ
  bytecode_entropy : ℚ
  counterfactual_risk : ℚ
  gas_anomaly_score : ℚ
  time_bomb_risk : ℚ
  security_report_risk : ℚ
  flag_density : ℚ
  revert_rate : ℚ
deriving DecidableEq

/-- MLService.buildFeatureVector. `simStatus` is simulationResult.status,
`adv` the advanced analysis when it succeeded, `securityReport` the merged
security report, `events` the trace result's event strings, `proxyInfo` the
proxy detection result (its interface carries no proxyDepth field, so the
source's proxyInfo?.proxyDepth read is always undefined and the isProxy
fallback applies). -/
def buildFeatureVector (simStatus : String) (adv : Option AdvancedAnalysis)
    (securityReport : Option SecurityAnalyzer.SecurityReport) (events : List String)
    (proxyInfo : Option ProxyDetector.ProxyInfo) : ContinuousFeatures :=
  let actorResults : List Counterfactual.ActorResult := match adv with
    | some a => a.counterfactual.actorResults
    | none => []
  let totalActors : Nat := actorResults.length
  let successCount : Nat :=
    (actorResults.filter (fun a => decide (a.status = SimStatus.Success))).length
  let sim_success_rate : ℚ :=
    if totalActors > 0 then (successCount : ℚ) / (totalActors : ℚ)
    else if strStartsWith simStatus "Revert" then 1/5 else 4/5
  let owner_privilege_ratio : ℚ := min 1 (match adv with
    | some a =>
      (if a.counterfactual.hasOwnerPrivileges then 2/5 else 0) +
      (if a.counterfactual.isHoneypot then 3/10 else 0) +
      (if a.counterfactual.privilegeDiff.length > 0 then
        min (3/10) ((a.counterfactual.privilegeDiff.length : ℚ) * (1/10)) else 0)
    | none => 0)
  let time_variance_score : ℚ := min 1 (match adv with
    | some a =>
      let divergingCount : Nat :=
        (a.timeTravel.futureResults.filter (·.divergesFromCurrent)).length
      (if a.timeTravel.isTimeSensitive then 1/2 else 0) +
      min (1/2) ((divergingCount : ℚ) * (1/10)) +
      (if a.timeTravel.riskFlags.length > 0 then
        min (3/10) ((a.timeTravel.riskFlags.length : ℚ) * (1/10)) else 0)
    | none => 0)
  let flags : List String := match securityReport with
    | some sr => sr.flags
    | none => []
  let flagsLower := flags.map strToLower
  let gatedPatterns : Nat :=
    (if flagsLower.any (fun f => strIncludes f "blacklist") then 1 else 0) +
    (if flagsLower.any (fun f => strIncludes f "whitelist") then 1 else 0) +
    (if flagsLower.any (fun f => strIncludes f "owner") then 1 else 0) +
    (if flagsLower.any (fun f => strIncludes f "blocked") then 1 else 0)
  let gated_branch_ratio : ℚ := min 1 ((gatedPatterns : ℚ) * (1/4))
  let dangerousPatterns : Nat :=
    (if flagsLower.any (fun f => strIncludes f "mint") then 1 else 0) +
    (if flagsLower.any (fun f => strIncludes f "drain") then 1 else 0) +
    (if flagsLower.any (fun f => strIncludes f "pause") then 1 else 0) +
    (if flagsLower.any (fun f => strIncludes f "selfdestruct") then 1 else 0)
  let mint_transfer_ratio : ℚ := min 1 ((dangerousPatterns : ℚ) * (1/4))
  let suspiciousCount : Nat := events.foldl (fun acc e =>
    acc + (if strIncludes e "SELFDESTRUCT" then 2 else 0) +
      (if strIncludes e "DELEGATECALL" then 1 else 0) +
      (if strIncludes e "CALLCODE" then 1 else 0)) 0
  let totalOpcodes : Nat := events.length
  let suspicious_opcode_density : ℚ :=
    if totalOpcodes > 0 then
      min 1 ((suspiciousCount : ℚ) / max (10 : ℚ) ((totalOpcodes : ℚ) / 10))
    else 0
  let proxyDepth : Nat := match proxyInfo with
    | some p => if p.isProxy then 1 else 0
    | none => 0
  let proxy_depth_normalized : ℚ := min 1 ((proxyDepth : ℚ) / 3)
  let instructionCount : Nat := max 1 events.length
  let sloadCount : Nat := (events.filter (fun e => strIncludes e "SLOAD")).length
  let sload_density : ℚ := min 1 (((sloadCount : ℚ) / (instructionCount : ℚ)) * 10)
  let bytecode_entropy : ℚ := 1/2
  let counterfactual_risk : ℚ := min 1 (match adv with
    | some a =>
      (if a.counterfactual.isHoneypot then 1/2 else 0) +
      (if a.counterfactual.hasOwnerPrivileges then 3/10 else 0) +
      (if a.counterfactual.hasWhitelistMechanism then 1/5 else 0)
    | none => 0)
  let time_bomb_risk : ℚ := match adv with
    | some a => min 1 ((a.timeTravel.riskFlags.length : ℚ) * (1/5))
    | none => 0
  let gasValues : List Nat := (actorResults.map (·.gasUsed)).filter (0 < ·)
  let maxGas : Nat := gasValues.foldl max 0
  let minGas : Nat := match gasValues with
    | [] => 0
    | g :: rest => rest.foldl min g
  let gasBase : ℚ :=
    if gasValues.length ≥ 2 then
      if maxGas > 0 then min 1 (((maxGas : ℚ) - (minGas : ℚ)) / (maxGas : ℚ)) else 0
    else 0
  let gas_anomaly_score : ℚ :=
    if flagsLower.any (fun f => strIncludes f "gas anomaly") then max gasBase (7/10)
    else gasBase
  let riskScore : Nat := match securityReport with
    | some sr => sr.riskScore
    | none => 0
  let security_report_risk : ℚ := min 1 ((riskScore : ℚ) / 100)
  let flagCount : Nat := flags.length
  let flag_density : ℚ := min 1 ((flagCount : ℚ) / 10)
  let revertCount : Nat :=
    (actorResults.filter (fun a => decide (a.status = SimStatus.Reverted))).length
  let revert_rate : ℚ :=
    if totalActors > 0 then (revertCount : ℚ) / (totalActors : ℚ)
    else if strStartsWith simStatus "Revert" then 4/5 else 1/5
  { sim_success_rate := sim_success_rate
    owner_privilege_ratio := owner_privilege_ratio
    time_variance_score := time_variance_score
    gated_branch_ratio := gated_branch_ratio
    mint_transfer_ratio := mint_transfer_ratio
    suspicious_opcode_density := suspicious_opcode_density
    proxy_depth_normalized := proxy_depth_normalized
    sload_density := sload_density
    bytecode_entropy := bytecode_entropy
    counterfactual_risk := counterfactual_risk
    gas_anomaly_score := gas_anomaly_score
    time_bomb_risk := time_bomb_risk
    security_report_risk := security_report_risk
    flag_density := flag_density
    revert_rate := revert_rate }

/-- The bytecode_entropy definition of the specification, in its words: the
Shannon entropy of the byte histogram of the deployed code, normalized to
the unit interval against log2 of 256. Stated over the reals for comparison
with the value the source computes. -/
noncomputable def specShannonEntropyNormalized (code : List Nat) : ℝ :=
  (-(Finset.range 256).sum (fun b =>
    if code.count b = 0 then 0
    else ((code.count b : ℝ) / (code.length : ℝ)) *
      Real.logb 2 ((code.count b : ℝ) / (code.length : ℝ)))) / Real.logb 2 256

end MLService

namespace EvmExecutor

/- Embedding of the final verdict assembly of EvmExecutor.simulateTransaction
(the PHASE 5 block). -/

/-- The fields of the merged security report that the verdict reads. -/
structure FinalReport where
  isHoneypot : Bool
  riskScore : Nat
  friendlyExplanation : Option String
deriving DecidableEq

/-- The calibrated classifier response fields the verdict reads. -/
structure MLResult where
  scam_probability : ℚ
  uncertainty : ℚ
  reason : String
deriving DecidableEq

/-- The final verdict envelope. -/
structure FinalVerdict where
  verdict : String
  reason : String
  confidence : ℚ
  source : String
deriving DecidableEq

/-- The JavaScript string-or fallback: an absent or empty string falls
through to the alternative. -/
def jsStrOr (o : Option String) (alt : String) : String :=
  match o with
  | some s => if s = "" then alt else s
  | none => alt

/-- The PHASE 5 verdict assembly: the rule-based scam disjunction wins first
with a BLOCK at confidence 100; then the risk-score WARN at 50 or more; then
the calibrated classifier bands; then the default SAFE. -/
def computeFinalVerdict (securityReport : Option FinalReport) (adv : Option AdvancedAnalysis)
    (ml : Option MLResult) : FinalVerdict :=
  let ruleBasedIsScam :=
    (match securityReport with
      | some sr => sr.isHoneypot
      | none => false) ||
    (match adv with
      | some a => a.isScam || a.counterfactual.isHoneypot || a.counterfactual.hasOwnerPrivileges
      | none => false)
  let riskScore : Nat := match securityReport with
    | some sr => sr.riskScore
    | none => 0
  if ruleBasedIsScam then
    ⟨"BLOCK",
     jsStrOr (securityReport.bind (·.friendlyExplanation))
       (jsStrOr (adv.map (·.overallSummary)) "Honeypot or scam patterns detected"),
     100, "RULE_BASED"⟩
  else if riskScore ≥ 50 then
    ⟨"WARN", "Risk score " ++ toString riskScore ++ "/100 - Proceed with caution", 80,
     "RISK_SCORE"⟩
  else
    match ml with
    | some m =>
      if m.scam_probability > 7/10 then
        ⟨"BLOCK", "AI detected high risk: " ++ m.reason, m.scam_probability * 100,
         "ML_CALIBRATED"⟩
      else if m.scam_probability > 2/5 then
        ⟨"WARN", m.reason, m.scam_probability * 100, "ML_CALIBRATED"⟩
      else
        ⟨"SAFE", (if m.reason = "" then "No significant risks detected" else m.reason),
         (1 - m.scam_probability) * 100, "ML_CALIBRATED"⟩
    | none => ⟨"SAFE", "No significant risks detected", 50, "DEFAULT"⟩

end EvmExecutor

/-!
## Claims

One theorem per claim of the specification, with concrete counterexamples
where the source deviates from the claimed behaviour.
-/

/- ### Helper lemma for the proxy chain bound (C8) -/

/-- Each loop level of the chain walk adds at most one address per unit of
remaining fuel. -/
theorem resolveChainLoop_length_le (world : String → ProxyDetector.ChainEnv)
    (codeOf : String → Option String) :
    ∀ (fuel : Nat) (current : String) (chain : List String),
      (ProxyDetector.resolveChainLoop world codeOf fuel current chain).length ≤
        chain.length + fuel := by
  intro fuel
  induction fuel with
  | zero =>
    intro c ch
    simp [ProxyDetector.resolveChainLoop]
  | succ n ih =>
    intro c ch
    simp only [ProxyDetector.resolveChainLoop]
    split
    · split
      · split
        · split
          · exact le_trans (ih _ _) (by simp; omega)
          · simp
        · simp
      · simp
    · simp

/- ### Concrete inputs used by counterexamples and witnesses -/

/-- An advanced-analysis result whose counterfactual reports a honeypot. -/
def honeypotAdv : AdvancedAnalysis :=
  { timeTravel := ⟨false, SimStatus.Success, [], []⟩
    counterfactual := ⟨true, true, false, [], [], "HONEYPOT CONFIRMED", [], 100⟩
    overallRiskScore := 100
    overallSummary := "SCAM DETECTED: DO NOT INTERACT."
    isScam := true }

/-- A timestamp environment that diverges only at the past offset. -/
def pastOnlyEnv : Int → SimStatus :=
  fun o => if o = -86400 then SimStatus.Reverted else SimStatus.Success

/-- An actor matrix with one reverted random user (gas 100) and one
successful owner (gas 1000): a honeypot matrix that also trips the
gas-anomaly rule. -/
def gasAnomalyActors : List Counterfactual.ActorResult :=
  [⟨Counterfactual.ActorType.RandomUser, "0x1111", SimStatus.Reverted, 100⟩,
   ⟨Counterfactual.ActorType.Owner, "0x2222", SimStatus.Success, 1000⟩]

/-- An actor matrix with one reverted random user and one successful owner,
both with zero recorded gas. -/
def plainHoneypotActors : List Counterfactual.ActorResult :=
  [⟨Counterfactual.ActorType.RandomUser, "0x1111", SimStatus.Reverted, 0⟩,
   ⟨Counterfactual.ActorType.Owner, "0x2222", SimStatus.Success, 0⟩]

/-- A stored record for the drift counterexample: risk 0, single flag "a". -/
def lowRiskPrev : ScanHistory.ScanRecord := ⟨0, ["a"], ScanHistory.generateCapabilityHash ["a"]⟩

/-- A current report for the drift counterexample: risk 5, single flag "b". -/
def lowRiskCur : ScanHistory.CurrentReport := ⟨5, ["b"]⟩

/-- The first address of the cyclic proxy configuration. -/
def addrA : String := "0xaaaaaaaaaaaaaaaaaaaaaaaaaaaaaaaaaaaaaaaa"

/-- The second address of the cyclic proxy configuration. -/
def addrB : String := "0xbbbbbbbbbbbbbbbbbbbbbbbbbbbbbbbbbbbbbbbb"

/-- A chain state whose EIP-1967 implementation slot holds the 20-fold
repetition of one byte as the implementation address. -/
def cycleEnvTo (impl : Nat) : ProxyDetector.ChainEnv :=
  ⟨[], List.replicate 12 0 ++ List.replicate 20 impl, List.replicate 32 0,
   List.replicate 32 0, List.replicate 32 0, none⟩

/-- The cyclic world: A points to B, B points to A. -/
def worldAB : String → ProxyDetector.ChainEnv := fun a =>
  if a = addrA then cycleEnvTo 0xbb else if a = addrB then cycleEnvTo 0xaa
  else ⟨[], [], [], [], [], none⟩

/-- A provider that returns non-empty code for every address. -/
def codeAB : String → Option String := fun _ => some "0x6001"

/-- A chain state with two code bytes 0x0f 0x40 (hex "0f40": the substring
"f4" straddles the byte boundary), no standard slot set, no
implementation() answer. -/
def noF4Env : ProxyDetector.ChainEnv :=
  ⟨[0x0f, 0x40], List.replicate 32 0, List.replicate 32 0, List.replicate 32 0,
   List.replicate 32 0, none⟩

/- ### C1 -/

/-- C1: whenever the advanced analysis is present and its counterfactual
reports is_honeypot, the final verdict assembled by
EvmExecutor.simulateTransaction is BLOCK with the rule-based source and
confidence 100, for every security report and every classifier output
(present or absent). -/
theorem honeypot_verdict_block
    (securityReport : Option EvmExecutor.FinalReport) (adv : Option AdvancedAnalysis)
    (ml : Option EvmExecutor.MLResult) (a : AdvancedAnalysis)
    (hadv : adv = some a) (hhp : a.counterfactual.isHoneypot = true) :
    (EvmExecutor.computeFinalVerdict securityReport adv ml).verdict = "BLOCK" ∧
    (EvmExecutor.computeFinalVerdict securityReport adv ml).confidence = 100 ∧
    (EvmExecutor.computeFinalVerdict securityReport adv ml).source = "RULE_BASED" := by
  subst hadv
  simp [EvmExecutor.computeFinalVerdict, hhp]

/-- Witness for C1: the theorem applied to a concrete honeypot analysis with
no security report and no classifier result. -/
theorem honeypot_verdict_block_witness :
    (EvmExecutor.computeFinalVerdict none (some honeypotAdv) none).verdict = "BLOCK" ∧
    (EvmExecutor.computeFinalVerdict none (some honeypotAdv) none).confidence = 100 ∧
    (EvmExecutor.computeFinalVerdict none (some honeypotAdv) none).source = "RULE_BASED" :=
  honeypot_verdict_block none (some honeypotAdv) none honeypotAdv rfl rfl

/- ### C2 -/

/-- C2 (code bug): the claim demands risk_score in 0..100 with a final
saturation to 100, and the repository's own documentation shows the line
riskScore = Math.min(100, riskScore); but SecurityAnalyzer.analyze never
saturates. At deployed code bytes d0 40 22 0a af 29 79 eb (hex containing
the selectors d040220a of drain() weight 100 and af2979eb of
removeLiquidityETH weight 90) the computed risk score is 190, violating the
claimed bound; the later merge in EvmExecutor only takes maxima and cannot
lower it. -/
theorem riskScore_exceeds_saturation_bound :
    (SecurityAnalyzer.analyze "Success" []
      [0xd0, 0x40, 0x22, 0x0a, 0xaf, 0x29, 0x79, 0xeb]).riskScore = 190 ∧
    ¬ ((SecurityAnalyzer.analyze "Success" []
      [0xd0, 0x40, 0x22, 0x0a, 0xaf, 0x29, 0x79, 0xeb]).riskScore ≤ 100) := by
  decide

/- ### C3 -/

/-- Counterexample to C3: when only the past offset (-86400 s) diverges from
the baseline, the code still sets is_time_sensitive, although no
future-positive offset diverges — the claimed equivalence with a
future-positive divergence fails. -/
theorem timeSensitive_past_only_counterexample :
    (TimeTravel.runTimeTravelSimulation SimStatus.Success pastOnlyEnv).isTimeSensitive = true ∧
    (∀ f ∈ (TimeTravel.runTimeTravelSimulation SimStatus.Success pastOnlyEnv).futureResults,
      f.offsetSeconds > 0 → f.divergesFromCurrent = false) := by decide

/-- C3 as amended: is_time_sensitive is true exactly when ANY of the five
tested non-zero offsets — the four future offsets or the past offset
-86400 s — produces an outcome status different from the baseline. -/
theorem timeSensitive_iff_any_divergence (current : SimStatus) (outcomeAt : Int → SimStatus) :
    (TimeTravel.runTimeTravelSimulation current outcomeAt).isTimeSensitive = true ↔
      (outcomeAt 3600 ≠ current ∨ outcomeAt 86400 ≠ current ∨ outcomeAt 604800 ≠ current ∨
       outcomeAt 2592000 ≠ current ∨ outcomeAt (-86400) ≠ current) := by
  simp [TimeTravel.runTimeTravelSimulation, TimeTravel.timeOffsetList]

/- ### C4 -/

/-- Counterexample to C4: for the deployed code 00 00 00 00 the normalized
Shannon entropy of the byte histogram is 0, yet the feature vector's
bytecode_entropy is the hardcoded placeholder 1/2 (independent of every
input), so the field does not equal the claimed entropy. -/
theorem bytecode_entropy_not_shannon_counterexample :
    (MLService.buildFeatureVector "Success" none none [] none).bytecode_entropy = 1/2 ∧
    MLService.specShannonEntropyNormalized [0, 0, 0, 0] = 0 ∧
    ((1 : ℚ)/2 : ℚ) ≠ 0 := by
  refine ⟨rfl, ?_, by norm_num⟩
  unfold MLService.specShannonEntropyNormalized
  have hz : ((Finset.range 256).sum (fun b =>
      if ([0, 0, 0, 0] : List Nat).count b = 0 then (0 : ℝ)
      else ((([0, 0, 0, 0] : List Nat).count b : ℝ) / (([0, 0, 0, 0] : List Nat).length : ℝ)) *
        Real.logb 2 ((([0, 0, 0, 0] : List Nat).count b : ℝ) /
          (([0, 0, 0, 0] : List Nat).length : ℝ)))) = 0 := by
    apply Finset.sum_eq_zero
    intro b _
    by_cases hb : b = 0
    · subst hb
      norm_num [Real.logb_one]
    · have hc : ([0, 0, 0, 0] : List Nat).count b = 0 := by
        simp [List.count_eq_zero, hb]
      simp [hc]
  rw [hz]
  simp

/-- C4 as amended: the bytecode_entropy field of the 15-dimensional feature
vector is the constant 0.5 for every scan — a placeholder that is never
computed from the deployed code. -/
theorem bytecode_entropy_constant_half (simStatus : String) (adv : Option AdvancedAnalysis)
    (sr : Option SecurityAnalyzer.SecurityReport) (events : List String)
    (pInfo : Option ProxyDetector.ProxyInfo) :
    (MLService.buildFeatureVector simStatus adv sr events pInfo).bytecode_entropy = 1/2 := rfl

/- ### C5 -/

/-- Counterexample to C5: a matrix satisfying the claim's hypothesis (every
non-owner actor Reverted, an Owner Success) in which the gas-anomaly rule
also fires (user gas 100, owner gas 1000) ends with risk score 115, not the
claimed 100. -/
theorem honeypot_matrix_riskScore_counterexample :
    (∀ r ∈ gasAnomalyActors, r.actorType ≠ Counterfactual.ActorType.Owner →
      r.status = SimStatus.Reverted) ∧
    (∃ r ∈ gasAnomalyActors, r.actorType = Counterfactual.ActorType.Owner ∧
      r.status = SimStatus.Success) ∧
    (Counterfactual.analyzeCounterfactualResults gasAnomalyActors).riskScore = 115 ∧
    (115 : Nat) ≠ 100 := by decide

/-- C5 as amended: for every actor matrix whose non-owner actors all
reverted while some Owner actor succeeded, the result has is_honeypot,
has_owner_privileges, the CRITICAL HONEYPOT flag and a Critical privilege
diff; the risk score is set to 100 and is 115 instead when the gas-anomaly
rule adds its 15 on top. -/
theorem honeypot_matrix_detection (actors : List Counterfactual.ActorResult)
    (hall : ∀ r ∈ actors, r.actorType ≠ Counterfactual.ActorType.Owner →
      r.status = SimStatus.Reverted)
    (howner : ∃ r ∈ actors, r.actorType = Counterfactual.ActorType.Owner ∧
      r.status = SimStatus.Success) :
    (Counterfactual.analyzeCounterfactualResults actors).isHoneypot = true ∧
    (Counterfactual.analyzeCounterfactualResults actors).hasOwnerPrivileges = true ∧
    "CRITICAL HONEYPOT: Owner can execute, but users CANNOT" ∈
      (Counterfactual.analyzeCounterfactualResults actors).riskFlags ∧
    (∃ d ∈ (Counterfactual.analyzeCounterfactualResults actors).privilegeDiff,
      d.severity = "Critical") ∧
    ((Counterfactual.analyzeCounterfactualResults actors).riskScore = 100 ∨
      (Counterfactual.analyzeCounterfactualResults actors).riskScore = 115) := by
  have hAllFail :
      (actors.filter (fun r => decide (r.actorType = Counterfactual.ActorType.RandomUser))).all
        (fun r => decide (r.status = SimStatus.Reverted)) = true := by
    rw [List.all_eq_true]
    intro r hr
    rw [List.mem_filter] at hr
    have hty : r.actorType = Counterfactual.ActorType.RandomUser := by simpa using hr.2
    simp [hall r hr.1 (by simp [hty])]
  have hOwnerSucc :
      (actors.filter (fun r => decide (r.actorType = Counterfactual.ActorType.Owner))).any
        (fun r => decide (r.status = SimStatus.Success)) = true := by
    rw [List.any_eq_true]
    obtain ⟨r, hr, hty, hst⟩ := howner
    exact ⟨r, List.mem_filter.mpr ⟨hr, by simp [hty]⟩, by simp [hst]⟩
  have hNoUserSucc :
      (actors.filter (fun r => decide (r.actorType = Counterfactual.ActorType.RandomUser))).any
        (fun r => decide (r.status = SimStatus.Success)) = false := by
    rw [← Bool.not_eq_true, List.any_eq_true]
    rintro ⟨r, hr, hs⟩
    rw [List.mem_filter] at hr
    have hty : r.actorType = Counterfactual.ActorType.RandomUser := by simpa using hr.2
    have := hall r hr.1 (by simp [hty])
    simp_all
  have hNoWlSucc :
      (actors.filter
        (fun r => decide (r.actorType = Counterfactual.ActorType.WhitelistedAddress))).any
        (fun r => decide (r.status = SimStatus.Success)) = false := by
    rw [← Bool.not_eq_true, List.any_eq_true]
    rintro ⟨r, hr, hs⟩
    rw [List.mem_filter] at hr
    have hty : r.actorType = Counterfactual.ActorType.WhitelistedAddress := by simpa using hr.2
    have := hall r hr.1 (by simp [hty])
    simp_all
  simp only [Counterfactual.analyzeCounterfactualResults, hAllFail, hOwnerSucc, hNoUserSucc,
    hNoWlSucc, Bool.true_and, Bool.and_true, Bool.false_and, Bool.and_false, Bool.true_or,
    Bool.or_false]
  refine ⟨by trivial, by trivial, by simp, ?_, ?_⟩
  · exact ⟨⟨"Transaction Execution", "BLOCKED (Reverted)", "ALLOWED (Success)", "Critical"⟩,
      by simp, rfl⟩
  · rcases Bool.eq_false_or_eq_true (Counterfactual.gasAnomalyCond
      (actors.filter (fun r => decide (r.actorType = Counterfactual.ActorType.RandomUser)))
      (actors.filter (fun r => decide (r.actorType = Counterfactual.ActorType.Owner)))) with
        h | h <;> simp [h]

/-- Witness for C5: the amended theorem applied to the concrete matrix of
one reverted random user and one successful owner. -/
theorem honeypot_matrix_detection_witness :
    (Counterfactual.analyzeCounterfactualResults plainHoneypotActors).isHoneypot = true ∧
    (Counterfactual.analyzeCounterfactualResults plainHoneypotActors).hasOwnerPrivileges = true ∧
    "CRITICAL HONEYPOT: Owner can execute, but users CANNOT" ∈
      (Counterfactual.analyzeCounterfactualResults plainHoneypotActors).riskFlags ∧
    (∃ d ∈ (Counterfactual.analyzeCounterfactualResults plainHoneypotActors).privilegeDiff,
      d.severity = "Critical") ∧
    ((Counterfactual.analyzeCounterfactualResults plainHoneypotActors).riskScore = 100 ∨
      (Counterfactual.analyzeCounterfactualResults plainHoneypotActors).riskScore = 115) :=
  honeypot_matrix_detection plainHoneypotActors (by decide) (by decide)

/- ### C6 -/

set_option maxRecDepth 40000 in
/-- Counterexample to C6: the flag lists ["a", "a"] and ["a"] have equal
flag sets, yet their capability hashes differ (the sorted pipe-joins "a|a"
and "a" hash differently), refuting "different hashes iff the sets
differ". -/
theorem capabilityHash_duplicate_flags_counterexample :
    (["a", "a"] : List String).toFinset = (["a"] : List String).toFinset ∧
    ScanHistory.generateCapabilityHash ["a", "a"] ≠ ScanHistory.generateCapabilityHash ["a"] := by
  decide

/-- C6 as amended: the capability hash is the first 16 hex characters of the
sha256 of the sorted, pipe-joined flag list and is therefore unchanged under
every permutation of the list; equal flag sets of different multiplicities
may still hash differently. -/
theorem capabilityHash_perm_invariant (l₁ l₂ : List String) (h : l₁.Perm l₂) :
    ScanHistory.generateCapabilityHash l₁ = ScanHistory.generateCapabilityHash l₂ := by
  unfold ScanHistory.generateCapabilityHash
  have hs : List.insertionSort strLe l₁ = List.insertionSort strLe l₂ :=
    List.eq_of_perm_of_sorted (r := strLe)
      (((List.perm_insertionSort strLe l₁).trans h).trans
        (List.perm_insertionSort strLe l₂).symm)
      (List.sorted_insertionSort strLe l₁) (List.sorted_insertionSort strLe l₂)
  rw [hs]

/-- Witness for C6: the permutation invariance applied to the shuffled pair
["a", "b"] and ["b", "a"]. -/
theorem capabilityHash_perm_invariant_witness :
    ScanHistory.generateCapabilityHash ["a", "b"] =
      ScanHistory.generateCapabilityHash ["b", "a"] :=
  capabilityHash_perm_invariant ["a", "b"] ["b", "a"] (by decide)

/- ### C7 -/

set_option maxRecDepth 40000 in
/-- Counterexample to C7: with a prior record of risk 0 and flag "a" and a
current report of risk 5 and flag "b", the risk delta is 5 (below the
claimed +20 threshold) yet the auto-flag is appended, because the source
only requires drift (a changed capability hash) and a positive delta. -/
theorem riskIncreasedFlag_below_threshold_counterexample :
    (ScanHistory.analyzeDrift (some lowRiskPrev) lowRiskCur).riskDelta = 5 ∧
    ¬ ((5 : Int) ≥ 20) ∧
    ScanHistory.applyDriftFlag (ScanHistory.analyzeDrift (some lowRiskPrev) lowRiskCur)
      lowRiskCur.flags = lowRiskCur.flags ++ ["Risk Increased (+5 since last scan)"] := by
  decide

/-- C7 as amended: for every scan with a prior record, risk_delta is the
current risk score minus the prior one, and the Risk Increased auto-flag is
appended exactly when the capability hash changed and risk_delta is
positive (not at the +20 threshold the claim states). -/
theorem driftFlag_condition (prev : ScanHistory.ScanRecord) (cur : ScanHistory.CurrentReport) :
    (ScanHistory.analyzeDrift (some prev) cur).riskDelta =
      cur.riskScore - prev.riskScore ∧
    ScanHistory.applyDriftFlag (ScanHistory.analyzeDrift (some prev) cur) cur.flags =
      (if ScanHistory.generateCapabilityHash cur.flags ≠ prev.capabilityHash ∧
          cur.riskScore - prev.riskScore > 0
       then cur.flags ++ [ScanHistory.riskIncreasedFlag (cur.riskScore - prev.riskScore)]
       else cur.flags) := by
  constructor
  · rfl
  · by_cases h1 : ScanHistory.generateCapabilityHash cur.flags = prev.capabilityHash <;>
      by_cases h2 : cur.riskScore - prev.riskScore > 0 <;>
      simp [ScanHistory.analyzeDrift, ScanHistory.applyDriftFlag, h1, h2]

/- ### C8 -/

/-- Counterexample to C8: under the cyclic configuration A→B→A the walk
terminates but returns the chain [A, B, A, B, A, B] of length 6 — longer
than the claimed maximum of 5 and with repeated addresses, because no hop
checks previously visited addresses. -/
theorem proxyChain_cycle_counterexample :
    (ProxyDetector.resolveImplementationChain worldAB codeAB addrA).chain =
      [addrA, addrB, addrA, addrB, addrA, addrB] ∧
    ¬ ((ProxyDetector.resolveImplementationChain worldAB codeAB addrA).chain.length ≤ 5) ∧
    ¬ (ProxyDetector.resolveImplementationChain worldAB codeAB addrA).chain.Nodup := by
  decide

/-- C8 as amended: the walk always terminates — the chain is bounded by 6
addresses (the start plus at most 5 hops of the depth-limited loop) for
every configuration, cyclic ones included; no cycle detection is performed,
so addresses may repeat within the chain. -/
theorem proxyChain_length_bounded (world : String → ProxyDetector.ChainEnv)
    (codeOf : String → Option String) (addr : String) :
    (ProxyDetector.resolveImplementationChain world codeOf addr).chain.length ≤ 6 := by
  have h := resolveChainLoop_length_le world codeOf 5 addr [addr]
  simpa [ProxyDetector.resolveImplementationChain] using h

/- ### C9 -/

/-- Counterexample to C9: the two-byte code 0f 40 contains no 0xf4 byte at
all (so no DELEGATECALL opcode), yet with no standard slot set it is
classified as a (custom) proxy, because the source searches the hex string
for "f4" and finds it straddling the byte boundary of "0f40". -/
theorem customProxy_no_delegatecall_counterexample :
    (ProxyDetector.detectProxy noF4Env).isProxy = true ∧
    noF4Env.code.length < 200 ∧
    (∀ b ∈ noF4Env.code, b ≠ 0xf4) := by decide

/-- C9 as amended: when no standard pattern or slot matches (no EIP-1167
shape, empty EIP-1967 and EIP-1822 slots, failing implementation() call),
the contract is classified as a custom proxy exactly when its code is under
200 bytes and its lowercase hex encoding contains the substring "f4" —
which need not correspond to a DELEGATECALL instruction. -/
theorem customProxy_condition (env : ProxyDetector.ChainEnv)
    (h1 : ProxyDetector.checkMinimalProxy (bytesHex env.code) = none)
    (h2 : ProxyDetector.extractAddress env.implSlot = none)
    (h3 : ProxyDetector.extractAddress env.uupsSlot = none)
    (h4 : (ProxyDetector.checkEIP897 env).isProxy = false) :
    (ProxyDetector.detectProxy env).isProxy =
      (decide (env.code.length < 200) &&
        ProxyDetector.containsDelegateCall (bytesHex env.code)) := by
  simp only [ProxyDetector.detectProxy, h1]
  simp only [ProxyDetector.checkEIP1967Slots, h2]
  simp only [ProxyDetector.checkEIP1822, h3]
  simp only [ProxyDetector.emptyInfo]
  simp only [h4]
  by_cases hc : env.code.length < 200 <;>
    by_cases hd : ProxyDetector.containsDelegateCall (bytesHex env.code) = true <;>
    simp [ProxyDetector.emptyInfo, hc, hd]

/-- Witness for C9: the amended condition applied to the concrete 0f 40
environment, where all four standard-check hypotheses hold by
computation. -/
theorem customProxy_condition_witness :
    (ProxyDetector.detectProxy noF4Env).isProxy =
      (decide (noF4Env.code.length < 200) &&
        ProxyDetector.containsDelegateCall (bytesHex noF4Env.code)) :=
  customProxy_condition noF4Env (by decide) (by decide) (by decide) (by decide)

/- ### C10 -/

/-- C10: for an address with no prior stored record, drift analysis returns
no drift, a zero risk delta, empty new- and removed-flag lists and no prior
record, and the risk-increase auto-flag is never appended to a first
scan. -/
theorem first_scan_no_drift (cur : ScanHistory.CurrentReport) :
    ScanHistory.analyzeDrift none cur = ⟨false, 0, [], [], none⟩ ∧
    ScanHistory.applyDriftFlag (ScanHistory.analyzeDrift none cur) cur.flags = cur.flags := by
  constructor
  · rfl
  · simp [ScanHistory.analyzeDrift, ScanHistory.applyDriftFlag]
